import Mathlib

/-!
# Verification of the gaza-bot rotation and schedule engine

Shallow embedding of the channel/comment rotation and watch-time scheduling
logic of the repository (`src/services/supportService.js`,
`src/services/support/adService.js` (VideoService part),
`src/services/support/engagementService.js`,
`src/ui/supportSettingsMenu.js`).

JavaScript numbers appearing in the engine are embedded as follows:
integer-valued quantities (settings fields, channel counters, indices) as
`Nat`/`Int`, and the video-duration/watch-time arithmetic as exact rationals
(`ℚ`) with `Int.floor` standing for `Math.floor` and `%` on naturals standing
for the JavaScript remainder on non-negative operands.  Browser interactions
are abstracted as oracles: each `await`ed browser call is a field of an
environment record giving the value it returns, or marking that it throws.
-/

namespace GazaBot

/-- A channel record (`ChannelRecord` of the spec; objects stored in
`channels.json`).  `supportCount` and `lastSupported` may be absent on
records created before a first successful visit, which the code defends
against with `(channel.supportCount || 0)`. -/
structure Channel where
  id : String
  name : String
  url : String
  supportCount : Option Nat
  lastSupported : Option String
deriving Repr, DecidableEq, Inhabited

/-- The settings record (`ScheduleSettings`).  The fields `rotateChannels`,
`lastChannelIndex` and `lastCommentIndex` are optional because the default
settings object built by `DataService.loadSettings` does not contain them;
in JavaScript reading an absent field yields `undefined`, which is falsy and
for which `undefined >= 0` is `false`.  `commentIndexUpdated` models the
temporary `_commentIndexUpdated` flag (`false` = field absent/deleted). -/
structure Settings where
  watchTimePercentage : Nat
  minWatchTimeSeconds : Nat
  maxWatchTimeSeconds : Nat
  likeVideos : Bool
  subscribeToChannels : Bool
  pauseBetweenChannelsSeconds : Nat
  rotateChannels : Option Bool := none
  lastChannelIndex : Option Int := none
  lastCommentIndex : Option Int := none
  commentIndexUpdated : Bool := false
deriving Repr, DecidableEq, Inhabited

/-- The default settings object of `DataService.loadSettings`
(supportService.js lines 1908-1915): note the absence of `rotateChannels`,
`lastChannelIndex` and `lastCommentIndex`. -/
def defaultSettings : Settings :=
  { watchTimePercentage := 70
    minWatchTimeSeconds := 60
    maxWatchTimeSeconds := 600
    likeVideos := true
    subscribeToChannels := true
    pauseBetweenChannelsSeconds := 30 }

/-- State of the settings file as seen by `DataService.loadSettings`:
missing, unreadable (`fs.readJson` throws), or readable with some content. -/
inductive SettingsFile where
  | absent
  | unreadable
  | content (s : Settings)
deriving Repr, DecidableEq

/-- Embedding of `DataService.loadSettings` (supportService.js lines 1906-1927): returns
the defaults when the file does not exist or reading it throws, otherwise
the parsed content. -/
def loadSettings : SettingsFile → Settings
  | .absent => defaultSettings
  | .unreadable => defaultSettings
  | .content s => s

/-- Video details produced by `VideoService.getVideoDetails`
(adService.js, VideoService part). -/
structure VideoDetails where
  title : String
  durationText : String
  durationSeconds : ℚ
  isLive : Bool
deriving Repr, DecidableEq, Inhabited

/-- Embedding of `VideoService.calculateWatchTime` (adService.js lines 313-326):

```js
const watchTimePercentage = settings.watchTimePercentage / 100;
let targetWatchTime = Math.floor(videoDetails.durationSeconds * watchTimePercentage);
targetWatchTime = Math.max(
  Math.min(settings.minWatchTimeSeconds, videoDetails.durationSeconds),
  Math.min(targetWatchTime, settings.maxWatchTimeSeconds)
);
```
-/
def calculateWatchTime (videoDetails : VideoDetails) (settings : Settings) : ℚ :=
  let watchTimePercentage : ℚ := (settings.watchTimePercentage : ℚ) / 100
  let targetWatchTime : ℚ := (⌊videoDetails.durationSeconds * watchTimePercentage⌋ : ℤ)
  max (min (settings.minWatchTimeSeconds : ℚ) videoDetails.durationSeconds)
      (min targetWatchTime (settings.maxWatchTimeSeconds : ℚ))

/-- The starting index of the rotation (supportService.js lines 132-140):

```js
let startIndex = 0;
if (settings.rotateChannels && settings.lastChannelIndex >= 0) {
  startIndex = (settings.lastChannelIndex + 1) % channels.length;
}
```

An absent `rotateChannels` is falsy; `undefined >= 0` is `false`, so an
absent `lastChannelIndex` behaves like the `-1` default used here. -/
def computeStartIndex (settings : Settings) (numChannels : Nat) : Nat :=
  if settings.rotateChannels.getD false = true ∧ 0 ≤ settings.lastChannelIndex.getD (-1) then
    ((settings.lastChannelIndex.getD (-1)) + 1).toNat % numChannels
  else 0

/-- The reordered visiting list (supportService.js line 143):
`[...channels.slice(startIndex), ...channels.slice(0, startIndex)]`. -/
def reorderChannels (channels : List Channel) (startIndex : Nat) : List Channel :=
  channels.drop startIndex ++ channels.take startIndex

/-- Result record returned by the comment selector:
`{ comment, index, isRotated }`. -/
structure CommentResult where
  comment : String
  index : Nat
  isRotated : Bool
deriving Repr, DecidableEq, Inhabited

/-- Embedding of `EngagementService.getRandomComment` (engagementService.js lines 129-132):
uniform-random mode, `comments[Math.floor(Math.random() * comments.length)]`.
The random draw is abstracted as an index argument `randomIndex`
(`Math.floor(random() * n)` always lands in `[0, n)` for a non-empty pool). -/
def getRandomComment (comments : List String) (randomIndex : Nat) : String :=
  comments.getD randomIndex ""

/-- Modelled from the spec: `EngagementService.getNextComment` is called by
`SupportService.supportChannel` (supportService.js line 297) but its
definition is not present under `src/`; only the uniform-random selector
`getRandomComment` is.  Rotation mode per the spec (section 4.2):
`nextIndex = (lastCommentIndex + 1) mod comments.length`; returns
`{ comment: comments[nextIndex], index: nextIndex, isRotated: true }`.
An absent `lastCommentIndex` is taken as the spec's `-1` initial value. -/
def getNextComment (comments : List String) (settings : Settings) : CommentResult :=
  let nextIndex : Nat := ((settings.lastCommentIndex.getD (-1)) + 1).toNat % comments.length
  { comment := comments.getD nextIndex ""
    index := nextIndex
    isRotated := true }

/-- One feedback step of the caller protocol: persist
`lastCommentIndex = returned index` (done when `isRotated` is true). -/
def feedComment (comments : List String) (settings : Settings) : Settings :=
  { settings with lastCommentIndex := some ((getNextComment comments settings).index : Int) }

/-- The settings after `k` rotation calls, each feeding its returned index
back as the new `lastCommentIndex`. -/
def feedCommentIter (comments : List String) (settings : Settings) : Nat → Settings
  | 0 => settings
  | k + 1 => feedComment comments (feedCommentIter comments settings k)

/-- The result of the `(k+1)`-st of a sequence of rotation calls starting
from `settings` (0-based `k`), each call feeding back its index. -/
def rotationCall (comments : List String) (settings : Settings) (k : Nat) : CommentResult :=
  getNextComment comments (feedCommentIter comments settings k)

/-! ## The watch loop (`VideoService.watchVideo`, adService.js lines 334-439)

Each iteration of the `while (elapsedSeconds < watchTimeSeconds)` loop sleeps
10 seconds and then polls the page with `page.evaluate`.  A poll either
throws (caught by the surrounding `try`, making `watchVideo` return `false`),
finds no `video.html5-main-video` element (the evaluate returns
`{ error: ... }`, leaving every field of `videoState` `undefined`), or
returns the video state.  When the state reports `isPaused`, a second
`page.evaluate` tries to resume playback; that call can also throw
(`resumeErr`).  `elapsedSeconds` grows by exactly 10 per iteration, so
iteration `k` runs iff `10 * k < watchTimeSeconds`, i.e. iff
`k < ⌈watchTimeSeconds / 10⌉₊`. -/

/-- Video state returned by one in-loop `page.evaluate` poll. -/
structure VideoState where
  videoId : String
  currentTime : ℚ
  duration : ℚ
  hasEnded : Bool
  isPaused : Bool
deriving Repr, DecidableEq, Inhabited

/-- One poll outcome: the state plus whether the resume-`evaluate` (run only
when the state reports paused) would throw. -/
structure PollOutcome where
  state : VideoState
  resumeErr : Bool
deriving Repr, DecidableEq, Inhabited

/-- Result of one in-loop `page.evaluate` call. -/
inductive PollResult where
  /-- The evaluate call throws (page context lost, ...). -/
  | err
  /-- `video.html5-main-video` is missing: `{ error: 'Video element not found' }`,
  all fields of `videoState` read as `undefined`. -/
  | noVideo
  | ok (o : PollOutcome)
deriving Repr, DecidableEq, Inhabited

/-- The body of the watch loop from the poll on, for iteration `k` with
`rem` iterations remaining (`k + rem = ⌈watchTime / 10⌉₊`).  Mirrors the
checks of adService.js lines 402-430 in source order: video-id change, ended
or within 5 seconds of the end, paused (attempt resume, which may throw).
A `rem` of `0` is the loop guard `elapsedSeconds < watchTimeSeconds`
failing: the loop exits and `watchVideo` returns `true`. -/
def watchVideoGo (poll : Nat → PollResult) (initialVideoId : String) :
    Nat → Nat → Bool
  | _, 0 => true
  | k, rem + 1 =>
    match poll k with
    | .err => false
    | .noVideo =>
      -- `undefined !== initialVideoId` holds for every string, so the break
      -- at line 406 fires unless `initialVideoId` is itself `''`; all other
      -- checks read `undefined` and are falsy.
      if initialVideoId ≠ "" then true
      else watchVideoGo poll initialVideoId (k + 1) rem
    | .ok o =>
      if o.state.videoId ≠ initialVideoId ∧ initialVideoId ≠ "" then true
      else if o.state.hasEnded = true ∨
          (0 < o.state.duration ∧ o.state.duration - 5 ≤ o.state.currentTime) then true
      else if o.state.isPaused = true ∧ o.resumeErr = true then false
      else watchVideoGo poll initialVideoId (k + 1) rem

/-- Embedding of `VideoService.watchVideo` (adService.js lines 334-439).  `initEvalErr`
marks the initial scroll/seek or video-id `page.evaluate` calls throwing
(caught by the function's `try`, returning `false` before the loop);
`initialVideoId` is the id recorded before the loop (`''` when the URL
carried no recognizable id). -/
def watchVideo (initEvalErr : Bool) (poll : Nat → PollResult)
    (watchTimeSeconds : ℚ) (initialVideoId : String) : Bool :=
  if initEvalErr then false
  else watchVideoGo poll initialVideoId 0 ⌈watchTimeSeconds / 10⌉₊

/-! ## One visit (`SupportService.supportChannel`, supportService.js 245-315)

The browser behaviour during one visit, abstracted call by call.  Calls whose
JavaScript implementation catches its own errors and converts them to a
return value (`navigateToChannelVideos`, `findLatestVideo`,
`skipAdsIfPresent`, `getVideoDetails`, `subscribeToChannel`, `likeVideo`,
`leaveComment`, `watchVideo`) cannot throw out of `supportChannel`; the one
`await` without such a guard is `page.goto(videoUrl, ...)` at line 274,
whose throw is caught by `supportChannel`'s own `try` and turned into
`return false`. -/
structure VisitEnv where
  /-- `this.browser.page` is non-null. -/
  pageAvailable : Bool
  /-- Result of `navigationService.navigateToChannelVideos` (catches internally). -/
  navOk : Bool
  /-- Result of `navigationService.findLatestVideo` (catches internally,
  `null` when no video link is found). -/
  videoUrl : Option String
  /-- Whether `page.goto(videoUrl, ...)` (line 274) throws. -/
  gotoThrows : Bool
  /-- Result of `videoService.getVideoDetails` (catches internally and falls
  back to a default 300-second record, so it always returns). -/
  videoDetails : VideoDetails
  /-- Whether the initial `page.evaluate` calls of `watchVideo` throw. -/
  initEvalErr : Bool
  /-- The video id recorded at the start of `watchVideo` (`''` if the URL
  match failed). -/
  initialVideoId : String
  /-- The in-loop polls of `watchVideo`. -/
  poll : Nat → PollResult

/-- Embedding of `SupportService.supportChannel`: returns the visit's success flag and the
settings as mutated by the comment-rotation bookkeeping (lines 300-305).
The result of `watchVideo` is received but not consulted: line 308 awaits it
and line 310 returns `true` unconditionally. -/
def supportChannel (env : VisitEnv) (settings : Settings) (comments : List String) :
    Bool × Settings :=
  if env.pageAvailable = false then (false, settings)
  else if env.navOk = false then (false, settings)
  else
    match env.videoUrl with
    | none => (false, settings)
    | some _ =>
      if env.gotoThrows then (false, settings)
      else
        let watchTime := calculateWatchTime env.videoDetails settings
        let commentResult := getNextComment comments settings
        let settings' :=
          if commentResult.isRotated then
            { settings with lastCommentIndex := some (commentResult.index : Int)
                            commentIndexUpdated := true }
          else settings
        let _ := watchVideo env.initEvalErr env.poll watchTime env.initialVideoId
        (true, settings')

/-! ## The run (`SupportService.startSupporting`, supportService.js 93-221) -/

/-- Mutable state threaded through the channel loop: the channel array (the
loop mutates the visited channel object in place, i.e. the entry at its
original position), the settings object, the run's success counter
(`supportCount`, line 130) and the original positions navigated to so far. -/
structure LoopState where
  channels : List Channel
  settings : Settings
  supported : Nat
  visited : List Nat
deriving Repr, DecidableEq, Inhabited

/-- One iteration of the `for` loop (lines 147-207), visiting
`reorderedChannels[i]`, which is the channel object stored at original
position `(startIdx + i) % n`.  On success the channel's counter and
timestamp are updated (lines 162-163), `lastChannelIndex` is set to the
channel's index in the original array when `rotateChannels` is set
(lines 172-176), and the `_commentIndexUpdated` flag set by
`supportChannel` is consumed (lines 179-184). -/
def runStep (venv : VisitEnv) (timestamp : String) (startIdx i : Nat)
    (comments : List String) (st : LoopState) : LoopState :=
  let n := st.channels.length
  let pos := (startIdx + i) % n
  let channel := st.channels.getD pos default
  let origIdx := st.channels.findIdx (fun c => c.id == channel.id)
  let r := supportChannel venv st.settings comments
  if r.1 then
    let updated := { channel with
      supportCount := some (channel.supportCount.getD 0 + 1)
      lastSupported := some timestamp }
    let s₂ :=
      if r.2.rotateChannels.getD false then
        { r.2 with lastChannelIndex := some (origIdx : Int) }
      else r.2
    let s₃ := if s₂.commentIndexUpdated then { s₂ with commentIndexUpdated := false } else s₂
    { channels := st.channels.set pos updated
      settings := s₃
      supported := st.supported + 1
      visited := st.visited ++ [pos] }
  else
    { st with settings := r.2, visited := st.visited ++ [pos] }

/-- Per-run oracles: the start confirmation (`y`/timeout default), the
browser behaviour of each visit, the continue answers after each channel and
the `new Date().toISOString()` timestamps. -/
structure RunEnv where
  confirmStart : Bool
  visitEnvs : Nat → VisitEnv
  continueAnswers : Nat → Bool
  timestamps : Nat → String

/-- The channel loop: iterates `i = 0 .. n-1` over the reordered list,
stopping early when the user answers the continue prompt negatively
(lines 197-202).  `fuel` is `n - i`. -/
def runLoop (renv : RunEnv) (comments : List String) (startIdx : Nat) :
    Nat → Nat → LoopState → LoopState
  | _, 0, st => st
  | i, fuel + 1, st =>
    let st' := runStep (renv.visitEnvs i) (renv.timestamps i) startIdx i comments st
    if renv.continueAnswers i then runLoop renv comments startIdx (i + 1) fuel st'
    else st'

/-- Why a run ended before visiting anything. -/
inductive AbortReason where
  | emptyChannels
  | emptyComments
  | cancelled
deriving Repr, DecidableEq

/-- Outcome of a run. -/
structure RunResult where
  aborted : Option AbortReason
  finalState : LoopState
deriving Repr, DecidableEq

/-- Embedding of `SupportService.startSupporting` from the point where data is loaded
(lines 94-210): the empty-channel and empty-comment precondition checks
(lines 98-108), the start confirmation (lines 121-127), the rotation start
index (lines 132-143) and the channel loop.  The restart prompt at the end
re-runs the whole procedure and is not part of one run. -/
def startSupporting (channels : List Channel) (comments : List String)
    (settings : Settings) (renv : RunEnv) : RunResult :=
  if channels.length = 0 then
    ⟨some .emptyChannels, ⟨channels, settings, 0, []⟩⟩
  else if comments.length = 0 then
    ⟨some .emptyComments, ⟨channels, settings, 0, []⟩⟩
  else if renv.confirmStart = false then
    ⟨some .cancelled, ⟨channels, settings, 0, []⟩⟩
  else
    ⟨none,
     runLoop renv comments (computeStartIndex settings channels.length)
       0 channels.length ⟨channels, settings, 0, []⟩⟩

/-! ## Settings edits (`SupportSettingsMenuHandler`, supportSettingsMenu.js)

The raw line of input is parsed with `parseInt`; a `NaN` (and the explicit
`'0'`/empty cancel path, whose value `0` is below every accepted range
anyway) is modelled as `none`. -/

/-- Embedding of `changeMinWatchTime` (supportSettingsMenu.js lines 177-212): rejects
values outside `[10, 300]` and values above the current maximum, otherwise
stores the new minimum. -/
def changeMinWatchTime (settings : Settings) (input : Option Int) : Settings :=
  match input with
  | none => settings
  | some newValue =>
    if newValue < 10 ∨ 300 < newValue then settings
    else if (settings.maxWatchTimeSeconds : Int) < newValue then settings
    else { settings with minWatchTimeSeconds := newValue.toNat }

/-- Embedding of `changeMaxWatchTime` (supportSettingsMenu.js lines 218-253): rejects
values outside `[60, 3600]` and values below the current minimum, otherwise
stores the new maximum. -/
def changeMaxWatchTime (settings : Settings) (input : Option Int) : Settings :=
  match input with
  | none => settings
  | some newValue =>
    if newValue < 60 ∨ 3600 < newValue then settings
    else if newValue < (settings.minWatchTimeSeconds : Int) then settings
    else { settings with maxWatchTimeSeconds := newValue.toNat }

/-- A poll result that lets the watch loop continue to the next iteration:
the evaluate neither throws nor triggers any of the three exit checks
(id change, ended/near-end, paused with a failing resume). -/
def pollContinues (r : PollResult) (initialVideoId : String) : Prop :=
  match r with
  | .err => False
  | .noVideo => initialVideoId = ""
  | .ok o =>
    (o.state.videoId = initialVideoId ∨ initialVideoId = "") ∧
    o.state.hasEnded = false ∧
    ¬(0 < o.state.duration ∧ o.state.duration - 5 ≤ o.state.currentTime) ∧
    ¬(o.state.isPaused = true ∧ o.resumeErr = true)

instance (r : PollResult) (initialVideoId : String) :
    Decidable (pollContinues r initialVideoId) := by
  unfold pollContinues
  cases r <;> infer_instance

/-! ### Concrete records used by examples and witnesses -/

/-- Example channel `A`. -/
def chA : Channel := { id := "A", name := "Alpha", url := "uA", supportCount := none, lastSupported := none }

/-- Example channel `B`. -/
def chB : Channel := { id := "B", name := "Beta", url := "uB", supportCount := none, lastSupported := none }

/-- Example channel `C`. -/
def chC : Channel := { id := "C", name := "Gamma", url := "uC", supportCount := none, lastSupported := none }

/-- Settings with rotation enabled and `lastChannelIndex = 0`. -/
def rotSettings0 : Settings :=
  { defaultSettings with rotateChannels := some true, lastChannelIndex := some 0 }

/-- A visit whose browser calls all succeed up to the watch loop, where every
poll throws. -/
def errWatchVisitEnv : VisitEnv :=
  { pageAvailable := true
    navOk := true
    videoUrl := some "v"
    gotoThrows := false
    videoDetails := { title := "T", durationText := "5:00", durationSeconds := 300, isLive := false }
    initEvalErr := false
    initialVideoId := "A"
    poll := fun _ => .err }

/-- A visit whose first poll sees the original video and whose second poll
sees a different video id (autoplay advanced). -/
def idChangeVisitEnv : VisitEnv :=
  { pageAvailable := true
    navOk := true
    videoUrl := some "v"
    gotoThrows := false
    videoDetails := { title := "T", durationText := "5:00", durationSeconds := 300, isLive := false }
    initEvalErr := false
    initialVideoId := "A"
    poll := fun k =>
      if k = 0 then
        .ok { state := { videoId := "A", currentTime := 20, duration := 300,
                         hasEnded := false, isPaused := false }, resumeErr := false }
      else
        .ok { state := { videoId := "B", currentTime := 1, duration := 300,
                         hasEnded := false, isPaused := false }, resumeErr := false } }

/-- A run environment whose answers are all affirmative. -/
def trivRunEnv : RunEnv :=
  { confirmStart := true
    visitEnvs := fun _ => errWatchVisitEnv
    continueAnswers := fun _ => true
    timestamps := fun _ => "2026-01-01T00:00:00.000Z" }

/-! ## Helper lemmas -/

/-- The floor (`Math.floor`) of an exact natural ratio is natural division. -/
theorem floor_natCast_div_natCast (m n : Nat) :
    ⌊((m : ℚ)) / ((n : ℚ))⌋ = ((m / n : Nat) : Int) := by
  rw [← Nat.floor_div_eq_div (α := ℚ) m n,
    Int.natCast_floor_eq_floor (div_nonneg (Nat.cast_nonneg m) (Nat.cast_nonneg n))]

/-- The raw-percentage term of `calculateWatchTime` at a natural duration. -/
theorem floor_percentage (d p : Nat) :
    ⌊(d : ℚ) * ((p : ℚ) / 100)⌋ = ((d * p / 100 : Nat) : Int) := by
  have harg : (d : ℚ) * ((p : ℚ) / 100) = ((d * p : Nat) : ℚ) / ((100 : Nat) : ℚ) := by
    push_cast
    ring
  rw [harg, floor_natCast_div_natCast]

/-- C1: for every video with a positive whole-second duration and every
settings record with `watchTimePercentage ∈ [10,100]`,
`minWatchTimeSeconds ∈ [10,300]` and `maxWatchTimeSeconds ≥
minWatchTimeSeconds`, `VideoService.calculateWatchTime` returns exactly
`max(min(minWatchTimeSeconds, durationSeconds),
min(floor(durationSeconds * watchTimePercentage / 100), maxWatchTimeSeconds))`
— the spec's four-step `raw`/`upperBounded`/`effectiveMin`/`result`
algorithm. -/
theorem calculateWatchTime_matches_spec (vd : VideoDetails) (s : Settings) (d : Nat)
    (hd : vd.durationSeconds = (d : ℚ)) (hd0 : 0 < d)
    (hp1 : 10 ≤ s.watchTimePercentage) (hp2 : s.watchTimePercentage ≤ 100)
    (hm1 : 10 ≤ s.minWatchTimeSeconds) (hm2 : s.minWatchTimeSeconds ≤ 300)
    (hmm : s.minWatchTimeSeconds ≤ s.maxWatchTimeSeconds) :
    calculateWatchTime vd s =
      ((max (min s.minWatchTimeSeconds d)
            (min (d * s.watchTimePercentage / 100) s.maxWatchTimeSeconds) : Nat) : ℚ) := by
  unfold calculateWatchTime
  dsimp only
  rw [hd, floor_percentage d s.watchTimePercentage]
  push_cast
  rfl

/-- C1 witness: the claim's boundary instance `durationSeconds = 50`,
`minWatchTimeSeconds = 60`, `maxWatchTimeSeconds = 600`,
`watchTimePercentage = 70` yields exactly `50`. -/
theorem calculateWatchTime_matches_spec_witness :
    calculateWatchTime
      { title := "T", durationText := "0:50", durationSeconds := (50 : ℚ), isLive := false }
      { watchTimePercentage := 70, minWatchTimeSeconds := 60, maxWatchTimeSeconds := 600,
        likeVideos := true, subscribeToChannels := true, pauseBetweenChannelsSeconds := 30 }
      = 50 := by
  rw [calculateWatchTime_matches_spec _ _ 50 rfl (by decide) (by decide) (by decide)
    (by decide) (by decide) (by decide)]
  norm_num

/-- C2: for every non-empty channel list and every
`lastChannelIndex ∈ [-1, channels.length - 1]` (with any value of
`rotateChannels`), the visiting order computed by the rotation selector is a
permutation of the input containing every channel exactly once, and it is
deterministic in its inputs. -/
theorem rotationOrder_perm (channels : List Channel) (s : Settings)
    (hne : channels ≠ [])
    (hlo : -1 ≤ s.lastChannelIndex.getD (-1))
    (hhi : s.lastChannelIndex.getD (-1) < (channels.length : Int)) :
    (reorderChannels channels (computeStartIndex s channels.length)).Perm channels ∧
    (∀ c, (reorderChannels channels (computeStartIndex s channels.length)).count c
        = channels.count c) ∧
    (∀ (channels' : List Channel) (s' : Settings), channels' = channels → s' = s →
      reorderChannels channels' (computeStartIndex s' channels'.length)
        = reorderChannels channels (computeStartIndex s channels.length)) := by
  have hperm : (reorderChannels channels (computeStartIndex s channels.length)).Perm channels := by
    unfold reorderChannels
    have h : (channels.drop (computeStartIndex s channels.length)
          ++ channels.take (computeStartIndex s channels.length)).Perm
        (channels.take (computeStartIndex s channels.length)
          ++ channels.drop (computeStartIndex s channels.length)) :=
      List.perm_append_comm
    rw [List.take_append_drop] at h
    exact h
  refine ⟨hperm, fun c => hperm.count_eq c, ?_⟩
  intro channels' s' hc hs
  rw [hc, hs]

/-- C2 witness: the permutation guarantee at the concrete list `[A, B, C]`
with rotation enabled and `lastChannelIndex = 0`. -/
theorem rotationOrder_perm_witness :
    (reorderChannels [chA, chB, chC] (computeStartIndex rotSettings0 3)).Perm
      [chA, chB, chC] :=
  (rotationOrder_perm [chA, chB, chC] rotSettings0 (by decide) (by decide) (by decide)).1

/-- C4: if `rotateChannels` is falsy or `lastChannelIndex < 0` the visiting
order is the input unchanged; if `rotateChannels` is true and
`lastChannelIndex ≥ 0` the order is the input rotated left by
`start = (lastChannelIndex + 1) mod channels.length`; in particular
`[A, B, C]` with `lastChannelIndex = 0` yields `[B, C, A]`. -/
theorem rotationOrder_cases (channels : List Channel) (s : Settings)
    (hne : channels ≠ []) :
    ((s.rotateChannels.getD false = false ∨ s.lastChannelIndex.getD (-1) < 0) →
      reorderChannels channels (computeStartIndex s channels.length) = channels) ∧
    (∀ lci : Int, s.rotateChannels = some true → s.lastChannelIndex = some lci → 0 ≤ lci →
      computeStartIndex s channels.length = (lci + 1).toNat % channels.length ∧
      reorderChannels channels (computeStartIndex s channels.length)
        = channels.drop ((lci + 1).toNat % channels.length)
          ++ channels.take ((lci + 1).toNat % channels.length)) ∧
    reorderChannels [chA, chB, chC] (computeStartIndex rotSettings0 3) = [chB, chC, chA] := by
  refine ⟨?_, ?_, by decide⟩
  · intro h
    have hstart : computeStartIndex s channels.length = 0 := by
      unfold computeStartIndex
      rcases h with h | h
      · rw [if_neg]
        simp [h]
      · rw [if_neg]
        intro hcon
        omega
    rw [hstart]
    simp [reorderChannels]
  · intro lci hrot hlast hnn
    have hstart : computeStartIndex s channels.length = (lci + 1).toNat % channels.length := by
      unfold computeStartIndex
      rw [if_pos]
      · rw [hlast]
        rfl
      · rw [hrot, hlast]
        exact ⟨rfl, hnn⟩
    exact ⟨hstart, by rw [hstart]; rfl⟩

/-- C4 witness: the branch facts at the concrete inputs — default (field-less)
settings leave `[A, B, C]` unchanged, and rotation with
`lastChannelIndex = 0` produces `[B, C, A]`. -/
theorem rotationOrder_cases_witness :
    reorderChannels [chA, chB, chC] (computeStartIndex defaultSettings 3) = [chA, chB, chC] ∧
    reorderChannels [chA, chB, chC] (computeStartIndex rotSettings0 3) = [chB, chC, chA] :=
  ⟨(rotationOrder_cases [chA, chB, chC] defaultSettings (by decide)).1 (by decide),
   (rotationOrder_cases [chA, chB, chC] rotSettings0 (by decide)).2.2⟩

/-- C10: when the settings file is absent or unreadable, `loadSettings`
returns the default settings object, which carries no `rotateChannels`,
`lastChannelIndex` or `lastCommentIndex` field; consequently the rotation
branch of the channel selector is never taken under default settings and
every run visits the channels in original stored order from index 0. -/
theorem defaultSettings_no_rotation :
    loadSettings .absent = defaultSettings ∧
    loadSettings .unreadable = defaultSettings ∧
    defaultSettings.rotateChannels = none ∧
    defaultSettings.lastChannelIndex = none ∧
    defaultSettings.lastCommentIndex = none ∧
    (∀ n : Nat, computeStartIndex defaultSettings n = 0) ∧
    (∀ channels : List Channel,
      reorderChannels channels (computeStartIndex defaultSettings channels.length) = channels) := by
  refine ⟨rfl, rfl, rfl, rfl, rfl, fun n => rfl, fun channels => ?_⟩
  simp [reorderChannels, computeStartIndex, defaultSettings]

/-- Closed form of the index produced by the `(k+1)`-st feedback rotation
call: indices advance by one modulo the pool size at every call. -/
theorem rotationCall_index (comments : List String) (s : Settings) (lci : Int)
    (hne : comments ≠ []) (hs : s.lastCommentIndex = some lci) :
    ∀ k, (rotationCall comments s k).index
      = ((lci + 1).toNat % comments.length + k) % comments.length := by
  have hn : comments.length ≠ 0 := fun h => hne (List.length_eq_zero.mp h)
  intro k
  induction k with
  | zero =>
    show (getNextComment comments s).index = _
    unfold getNextComment
    rw [hs]
    simp
  | succ k ih =>
    have hfeed : (feedCommentIter comments s (k + 1)).lastCommentIndex
        = some (((rotationCall comments s k).index : Nat) : Int) := rfl
    show (getNextComment comments (feedCommentIter comments s (k + 1))).index = _
    unfold getNextComment
    dsimp only
    rw [hfeed]
    simp only [Option.getD_some]
    rw [ih]
    have htn : ((((lci + 1).toNat % comments.length + k) % comments.length : Nat) : Int) + 1
        = ((((lci + 1).toNat % comments.length + k) % comments.length + 1 : Nat) : Int) := by
      push_cast
      ring
    rw [htn, Int.toNat_natCast, Nat.mod_add_mod, Nat.add_assoc]

/-- C3: the rotation-mode comment selector returns
`{ comment = comments[(lastCommentIndex + 1) mod n], index = (lastCommentIndex + 1) mod n,
isRotated = true }`, and `n` consecutive feedback calls visit every comment
index exactly once (injectively and surjectively), advancing by one each
call, wrapping from last to first. -/
theorem commentRotation_spec (comments : List String) (s : Settings) (lci : Int)
    (hne : comments ≠ []) (hs : s.lastCommentIndex = some lci) (hlci : -1 ≤ lci) :
    getNextComment comments s
      = { comment := comments.getD ((lci + 1).toNat % comments.length) ""
          index := (lci + 1).toNat % comments.length
          isRotated := true } ∧
    (∀ k, (rotationCall comments s k).index
      = ((lci + 1).toNat % comments.length + k) % comments.length) ∧
    (∀ k, (rotationCall comments s k).comment
      = comments.getD (((lci + 1).toNat % comments.length + k) % comments.length) "") ∧
    (∀ k, (rotationCall comments s (k + 1)).index
      = ((rotationCall comments s k).index + 1) % comments.length) ∧
    (∀ j i, j < comments.length → i < comments.length →
      (rotationCall comments s j).index = (rotationCall comments s i).index → j = i) ∧
    (∀ j, j < comments.length → ∃ k, k < comments.length ∧
      (rotationCall comments s k).index = j) := by
  have hn : comments.length ≠ 0 := fun h => hne (List.length_eq_zero.mp h)
  have hidx := rotationCall_index comments s lci hne hs
  have hcomment : ∀ k, (rotationCall comments s k).comment
      = comments.getD ((rotationCall comments s k).index) "" := by
    intro k
    show (getNextComment comments (feedCommentIter comments s k)).comment = _
    unfold getNextComment
    rfl
  refine ⟨?_, hidx, ?_, ?_, ?_, ?_⟩
  · unfold getNextComment
    rw [hs]
    rfl
  · intro k
    rw [hcomment k, hidx k]
  · intro k
    rw [hidx k, hidx (k + 1), ← Nat.add_assoc, Nat.mod_add_mod]
  · intro j i hj hi hij
    rw [hidx j, hidx i] at hij
    have hmod : j ≡ i [MOD comments.length] :=
      Nat.ModEq.add_left_cancel' ((lci + 1).toNat % comments.length) hij
    have hout : j % comments.length = i % comments.length := hmod
    rwa [Nat.mod_eq_of_lt hj, Nat.mod_eq_of_lt hi] at hout
  · intro j hj
    set a := (lci + 1).toNat % comments.length with ha
    have hlt : a < comments.length := Nat.mod_lt _ (Nat.pos_of_ne_zero hn)
    by_cases hcase : a ≤ j
    · refine ⟨j - a, by omega, ?_⟩
      rw [hidx (j - a)]
      have : a + (j - a) = j := by omega
      rw [this, Nat.mod_eq_of_lt hj]
    · refine ⟨j + comments.length - a, by omega, ?_⟩
      rw [hidx (j + comments.length - a)]
      have : a + (j + comments.length - a) = j + comments.length := by omega
      rw [this, Nat.add_mod_right, Nat.mod_eq_of_lt hj]

/-- C3 witness: the rotation call at pool `["a","b","c"]` starting from the
initial `lastCommentIndex = -1` selects the first comment at index `0` with
`isRotated = true`, and the feedback index after wrapping returns to `0`. -/
theorem commentRotation_spec_witness :
    getNextComment ["a", "b", "c"] { defaultSettings with lastCommentIndex := some (-1) }
      = { comment := "a", index := 0, isRotated := true } ∧
    (rotationCall ["a", "b", "c"] { defaultSettings with lastCommentIndex := some (-1) } 3).index
      = 0 := by
  have h := commentRotation_spec ["a", "b", "c"]
    { defaultSettings with lastCommentIndex := some (-1) } (-1)
    (by decide) rfl (by decide)
  refine ⟨h.1, ?_⟩
  rw [h.2.1 3]
  decide

/-- C5 counterexample: the claim asserts `result ≥ 1` for every positive
`durationSeconds`, "not only integers".  At `durationSeconds = 1/2` with the
default (in-range) settings `percentage = 70 ∈ [10,100]`,
`min = 60 ∈ [10,300]`, `max = 600 ∈ [60,3600]`, `max ≥ min`, the calculator
returns `1/2 < 1`. -/
theorem calculateWatchTime_sub_one_counterexample :
    (0 : ℚ) < 1 / 2 ∧
    10 ≤ defaultSettings.watchTimePercentage ∧ defaultSettings.watchTimePercentage ≤ 100 ∧
    10 ≤ defaultSettings.minWatchTimeSeconds ∧ defaultSettings.minWatchTimeSeconds ≤ 300 ∧
    60 ≤ defaultSettings.maxWatchTimeSeconds ∧ defaultSettings.maxWatchTimeSeconds ≤ 3600 ∧
    defaultSettings.minWatchTimeSeconds ≤ defaultSettings.maxWatchTimeSeconds ∧
    calculateWatchTime
      { title := "T", durationText := "0:01", durationSeconds := 1 / 2, isLive := false }
      defaultSettings = 1 / 2 ∧
    calculateWatchTime
      { title := "T", durationText := "0:01", durationSeconds := 1 / 2, isLive := false }
      defaultSettings < 1 := by
  have hval : calculateWatchTime
      { title := "T", durationText := "0:01", durationSeconds := 1 / 2, isLive := false }
      defaultSettings = 1 / 2 := by
    unfold calculateWatchTime defaultSettings
    dsimp only
    rw [show ((1 : ℚ) / 2 * ((70 : Nat) / 100 : ℚ)) = 7 / 20 by norm_num]
    rw [show ⌊(7 : ℚ) / 20⌋ = 0 by
      rw [Int.floor_eq_iff]
      norm_num]
    rw [min_eq_right (by norm_num : (1 : ℚ) / 2 ≤ ((60 : Nat) : ℚ)),
      min_eq_left (by norm_num : (((0 : ℤ) : ℚ)) ≤ ((600 : Nat) : ℚ)),
      max_eq_left (by norm_num : (((0 : ℤ) : ℚ)) ≤ 1 / 2)]
  refine ⟨by norm_num, by decide, by decide, by decide, by decide, by decide, by decide,
    by decide, hval, ?_⟩
  rw [hval]
  norm_num

/-- C5 amended: with in-range settings and any positive rational duration
`d`, the result is at most `max d 1` (indeed at most `d`) and at least
`min d 1 > 0`; the claimed lower bound `result ≥ 1` holds whenever `d ≥ 1`
(in particular for every whole-second duration), but not for fractional
durations below one second. -/
theorem calculateWatchTime_bounds (vd : VideoDetails) (s : Settings)
    (hd : 0 < vd.durationSeconds)
    (hp1 : 10 ≤ s.watchTimePercentage) (hp2 : s.watchTimePercentage ≤ 100)
    (hm1 : 10 ≤ s.minWatchTimeSeconds) (hm2 : s.minWatchTimeSeconds ≤ 300)
    (hx1 : 60 ≤ s.maxWatchTimeSeconds) (hx2 : s.maxWatchTimeSeconds ≤ 3600)
    (hmm : s.minWatchTimeSeconds ≤ s.maxWatchTimeSeconds) :
    calculateWatchTime vd s ≤ max vd.durationSeconds 1 ∧
    min vd.durationSeconds 1 ≤ calculateWatchTime vd s ∧
    (1 ≤ vd.durationSeconds → 1 ≤ calculateWatchTime vd s) := by
  unfold calculateWatchTime
  dsimp only
  set d := vd.durationSeconds with hdd
  have hminW : (1 : ℚ) ≤ (s.minWatchTimeSeconds : ℚ) := by
    have : (10 : ℚ) ≤ (s.minWatchTimeSeconds : ℚ) := by exact_mod_cast hm1
    linarith
  have hraw_le : ((⌊d * ((s.watchTimePercentage : ℚ) / 100)⌋ : ℤ) : ℚ) ≤ d := by
    refine le_trans (Int.floor_le _) ?_
    have hple : ((s.watchTimePercentage : ℚ) / 100) ≤ 1 := by
      rw [div_le_one (by norm_num)]
      exact_mod_cast hp2
    calc d * ((s.watchTimePercentage : ℚ) / 100) ≤ d * 1 :=
          mul_le_mul_of_nonneg_left hple (le_of_lt hd)
      _ = d := mul_one d
  constructor
  · apply max_le
    · exact le_trans (min_le_right _ _) (le_max_left _ _)
    · exact le_trans (le_trans (min_le_left _ _) hraw_le) (le_max_left _ _)
  constructor
  · refine le_trans ?_ (le_max_left _ _)
    rcases le_total d 1 with hcase | hcase
    · rw [min_eq_left hcase]
      exact le_min (le_trans hcase (by linarith)) le_rfl
    · rw [min_eq_right hcase]
      exact le_min hminW hcase
  · intro h1
    refine le_trans (le_min hminW h1) (le_max_left _ _)

/-- C5 amended witness: the bounds at the concrete duration `300` and the
default settings. -/
theorem calculateWatchTime_bounds_witness :
    calculateWatchTime
        { title := "T", durationText := "5:00", durationSeconds := 300, isLive := false }
        defaultSettings ≤ max 300 1 ∧
    min (300 : ℚ) 1 ≤ calculateWatchTime
        { title := "T", durationText := "5:00", durationSeconds := 300, isLive := false }
        defaultSettings := by
  have h := calculateWatchTime_bounds
    { title := "T", durationText := "5:00", durationSeconds := 300, isLive := false }
    defaultSettings (by norm_num) (by decide) (by decide) (by decide) (by decide)
    (by decide) (by decide) (by decide)
  exact ⟨h.1, h.2.1⟩

/-- C9: the settings-edit handlers preserve
`minWatchTimeSeconds ≤ maxWatchTimeSeconds`: a new minimum above the current
maximum and a new maximum below the current minimum are both rejected with
the settings left unchanged, and every edit starting from a state satisfying
the invariant ends in a state satisfying it. -/
theorem settingsEdit_invariant (s : Settings) (input : Option Int)
    (hinv : s.minWatchTimeSeconds ≤ s.maxWatchTimeSeconds) :
    (changeMinWatchTime s input).minWatchTimeSeconds
      ≤ (changeMinWatchTime s input).maxWatchTimeSeconds ∧
    (changeMaxWatchTime s input).minWatchTimeSeconds
      ≤ (changeMaxWatchTime s input).maxWatchTimeSeconds ∧
    (∀ v : Int, (s.maxWatchTimeSeconds : Int) < v → changeMinWatchTime s (some v) = s) ∧
    (∀ v : Int, v < (s.minWatchTimeSeconds : Int) → changeMaxWatchTime s (some v) = s) := by
  refine ⟨?_, ?_, ?_, ?_⟩
  · match input with
    | none => exact hinv
    | some v =>
      unfold changeMinWatchTime
      dsimp only
      split_ifs with h1 h2
      · exact hinv
      · exact hinv
      · simp only
        omega
  · match input with
    | none => exact hinv
    | some v =>
      unfold changeMaxWatchTime
      dsimp only
      split_ifs with h1 h2
      · exact hinv
      · exact hinv
      · simp only
        omega
  · intro v hv
    unfold changeMinWatchTime
    dsimp only
    split_ifs with h1
    · rfl
    · rfl
  · intro v hv
    unfold changeMaxWatchTime
    dsimp only
    split_ifs with h1
    · rfl
    · rfl

/-- C9 witness: the invariant at the default settings for an accepted new
minimum (`100 ≤ 600`), and the rejection of a new maximum below the current
minimum (`10 < 60`), which leaves the settings unchanged. -/
theorem settingsEdit_invariant_witness :
    (changeMinWatchTime defaultSettings (some 100)).minWatchTimeSeconds
      ≤ (changeMinWatchTime defaultSettings (some 100)).maxWatchTimeSeconds ∧
    changeMaxWatchTime defaultSettings (some 10) = defaultSettings := by
  have h := settingsEdit_invariant defaultSettings (some 100) (by decide)
  exact ⟨h.1, h.2.2.2 10 (by decide)⟩

/-- C7: when the loaded channel list or the loaded comment pool is empty the
run aborts with the corresponding precondition error before any visit: no
channel position is navigated to, no channel record changes (so no
`supportCount` increments), and the settings are unmodified. -/
theorem emptyPrecondition_aborts (channels : List Channel) (comments : List String)
    (s : Settings) (renv : RunEnv) (h : channels = [] ∨ comments = []) :
    (channels = [] → (startSupporting channels comments s renv).aborted
      = some .emptyChannels) ∧
    (channels ≠ [] → comments = [] → (startSupporting channels comments s renv).aborted
      = some .emptyComments) ∧
    (∃ reason, (startSupporting channels comments s renv).aborted = some reason ∧
      (reason = AbortReason.emptyChannels ∨ reason = AbortReason.emptyComments)) ∧
    (startSupporting channels comments s renv).finalState.visited = [] ∧
    (startSupporting channels comments s renv).finalState.channels = channels ∧
    (startSupporting channels comments s renv).finalState.settings = s ∧
    (startSupporting channels comments s renv).finalState.supported = 0 := by
  unfold startSupporting
  rcases h with h | h
  · subst h
    simp
  · subst h
    by_cases hc : channels.length = 0
    · rw [if_pos hc]
      refine ⟨fun _ => rfl, fun hne _ => absurd (List.length_eq_zero.mp hc) hne,
        ⟨.emptyChannels, rfl, Or.inl rfl⟩, rfl, rfl, rfl, rfl⟩
    · rw [if_neg hc]
      refine ⟨fun he => absurd (congrArg List.length he) (by simpa using hc),
        fun _ _ => rfl, ⟨.emptyComments, rfl, Or.inr rfl⟩, rfl, rfl, rfl, rfl⟩

/-- C7 witness: a run over an empty channel list (with a non-empty comment
pool) aborts with the empty-channel precondition, visiting nothing and
leaving channels and settings untouched. -/
theorem emptyPrecondition_aborts_witness :
    (startSupporting [] ["hello"] defaultSettings trivRunEnv).aborted
      = some AbortReason.emptyChannels ∧
    (startSupporting [] ["hello"] defaultSettings trivRunEnv).finalState.visited = [] ∧
    (startSupporting [] ["hello"] defaultSettings trivRunEnv).finalState.supported = 0 := by
  have h := emptyPrecondition_aborts [] ["hello"] defaultSettings trivRunEnv (Or.inl rfl)
  exact ⟨h.1 rfl, h.2.2.2.1, h.2.2.2.2.2.2⟩

/-- The `i`-th entry of the reordered visiting list is the channel object
stored at original position `(startIdx + i) mod n`. -/
theorem reorderChannels_getD (l : List Channel) (s i : Nat)
    (hs : s < l.length) (hi : i < l.length) :
    (reorderChannels l s).getD i default = l.getD ((s + i) % l.length) default := by
  unfold reorderChannels
  by_cases hcase : i < l.length - s
  · have hdl : i < (l.drop s).length := by
      rw [List.length_drop]
      exact hcase
    rw [List.getD_append _ _ _ _ hdl, List.getD_eq_getElem _ _ hdl,
      List.getElem_drop l, Nat.mod_eq_of_lt (by omega),
      List.getD_eq_getElem _ _ (by omega)]
  · have hdl : (l.drop s).length ≤ i := by
      rw [List.length_drop]
      omega
    have hjlt : i - (l.drop s).length < s := by
      rw [List.length_drop]
      omega
    have hjlt' : i - (l.drop s).length < (l.take s).length := by
      rw [List.length_take]
      exact lt_min hjlt (by omega)
    rw [List.getD_append_right _ _ _ _ hdl, List.getD_eq_getElem _ _ hjlt',
      List.getElem_take l, List.getD_eq_getElem _ _ (Nat.mod_lt _ (by omega))]
    congr 1
    rw [Nat.mod_eq_sub_mod (by omega), Nat.mod_eq_of_lt (by omega), List.length_drop]
    omega

/-- Searching (`Array.prototype.findIndex`) by id over a list whose ids are unique finds
a channel object exactly at its own position. -/
theorem findIdx_getD_of_nodup (l : List Channel) :
    ∀ pos : Nat, pos < l.length → (l.map Channel.id).Nodup →
    l.findIdx (fun c => c.id == (l.getD pos default).id) = pos := by
  induction l with
  | nil =>
    intro pos hpos
    exact absurd hpos (by simp)
  | cons a t ih =>
    intro pos hpos hnd
    rw [List.map_cons, List.nodup_cons] at hnd
    cases pos with
    | zero =>
      rw [List.findIdx_cons]
      simp
    | succ j =>
      have hj : j < t.length := by
        simpa using hpos
      have hmem : (t.getD j default).id ∈ t.map Channel.id := by
        rw [List.getD_eq_getElem _ _ hj]
        exact List.mem_map_of_mem Channel.id (List.getElem_mem hj)
      have hne : (a.id == (t.getD j default).id) = false := by
        rw [beq_eq_false_iff_ne]
        intro he
        exact hnd.1 (he ▸ hmem)
      rw [List.getD_cons_succ, List.findIdx_cons, hne]
      simp only [cond_false]
      rw [ih j hj hnd.2]

/-- The function `supportChannel` never touches `rotateChannels` in the settings it
returns: the only mutation is the comment-rotation bookkeeping. -/
theorem supportChannel_rotateChannels (env : VisitEnv) (s : Settings)
    (comments : List String) :
    (supportChannel env s comments).2.rotateChannels = s.rotateChannels := by
  unfold supportChannel
  rcases env with ⟨pa, nav, url, gt, vd, iee, ivi, poll⟩
  cases pa <;> cases nav <;> cases url <;> cases gt <;>
    simp [getNextComment]

/-- C8: after a successfully supported channel with `rotateChannels` on, the
orchestrator stores in `lastChannelIndex` the channel's index in the
original (unrotated) list — `(startIdx + i) % n` for the `i`-th entry of the
rotated visiting order — computed by `findIndex` over the original array,
not the position `i` in the rotated order. -/
theorem lastChannelIndex_original_index (venv : VisitEnv) (ts : String)
    (startIdx i : Nat) (comments : List String) (st : LoopState)
    (hnd : (st.channels.map Channel.id).Nodup)
    (hsucc : (supportChannel venv st.settings comments).1 = true)
    (hrot : st.settings.rotateChannels = some true)
    (hstart : startIdx < st.channels.length) (hi : i < st.channels.length) :
    (reorderChannels st.channels startIdx).getD i default
      = st.channels.getD ((startIdx + i) % st.channels.length) default ∧
    st.channels.findIdx (fun c =>
        c.id == (st.channels.getD ((startIdx + i) % st.channels.length) default).id)
      = (startIdx + i) % st.channels.length ∧
    (runStep venv ts startIdx i comments st).settings.lastChannelIndex
      = some (((startIdx + i) % st.channels.length : Nat) : Int) := by
  have hpos : (startIdx + i) % st.channels.length < st.channels.length :=
    Nat.mod_lt _ (by omega)
  have hfind := findIdx_getD_of_nodup st.channels ((startIdx + i) % st.channels.length) hpos hnd
  refine ⟨reorderChannels_getD st.channels startIdx i hstart hi, hfind, ?_⟩
  unfold runStep
  dsimp only
  rw [hsucc, if_pos rfl]
  have hrot' : (supportChannel venv st.settings comments).2.rotateChannels.getD false = true := by
    rw [supportChannel_rotateChannels, hrot]
    rfl
  rw [if_pos hrot']
  have hlast : ∀ s' : Settings,
      (if s'.commentIndexUpdated then { s' with commentIndexUpdated := false } else s').lastChannelIndex
        = s'.lastChannelIndex := by
    intro s'
    split_ifs <;> rfl
  rw [hlast]
  dsimp only
  rw [hfind]

/-- C8 witness: with channels `[A, B, C]` (distinct ids), rotation offset
`startIdx = 1` and loop position `i = 1`, the visited channel is the one at
original index `2` and `lastChannelIndex` is set to `2`, not to `1`. -/
theorem lastChannelIndex_original_index_witness :
    (runStep errWatchVisitEnv "2026-01-01T00:00:00.000Z" 1 1 ["hello"]
        { channels := [chA, chB, chC], settings := rotSettings0,
          supported := 0, visited := [] }).settings.lastChannelIndex = some 2 := by
  have h := lastChannelIndex_original_index errWatchVisitEnv "2026-01-01T00:00:00.000Z"
    1 1 ["hello"]
    { channels := [chA, chB, chC], settings := rotSettings0, supported := 0, visited := [] }
    (by decide) (by decide) rfl (by decide) (by decide)
  exact h.2.2

/-- Unfolding equation for the watch loop at a positive remaining-iteration
count. -/
theorem watchVideoGo_succ (poll : Nat → PollResult) (initialVideoId : String)
    (k rem : Nat) :
    watchVideoGo poll initialVideoId k (rem + 1)
      = match poll k with
        | .err => false
        | .noVideo =>
          if initialVideoId ≠ "" then true
          else watchVideoGo poll initialVideoId (k + 1) rem
        | .ok o =>
          if o.state.videoId ≠ initialVideoId ∧ initialVideoId ≠ "" then true
          else if o.state.hasEnded = true ∨
              (0 < o.state.duration ∧ o.state.duration - 5 ≤ o.state.currentTime) then true
          else if o.state.isPaused = true ∧ o.resumeErr = true then false
          else watchVideoGo poll initialVideoId (k + 1) rem := rfl

/-- If every poll before `k₀` lets the loop continue and poll `k₀` reports a
different video id (with a determined initial id), the loop exits with
`true` at iteration `k₀`, regardless of how many iterations remain. -/
theorem watchVideoGo_break_true (poll : Nat → PollResult) (initialVideoId : String)
    (k₀ : Nat) (hinit : initialVideoId ≠ "")
    (hcont : ∀ j, j < k₀ → pollContinues (poll j) initialVideoId)
    (o : PollOutcome) (hp : poll k₀ = .ok o) (hid : o.state.videoId ≠ initialVideoId) :
    ∀ rem k, k ≤ k₀ → k₀ < k + rem → watchVideoGo poll initialVideoId k rem = true := by
  intro rem
  induction rem with
  | zero =>
    intro k h1 h2
    omega
  | succ rem ih =>
    intro k h1 h2
    by_cases hk : k = k₀
    · subst hk
      rw [watchVideoGo_succ, hp]
      dsimp only
      rw [if_pos ⟨hid, hinit⟩]
    · have hklt : k < k₀ := by omega
      have hc := hcont k hklt
      rw [watchVideoGo_succ]
      cases hpk : poll k with
      | err =>
        rw [hpk] at hc
        exact ((hc : False)).elim
      | noVideo =>
        rw [hpk] at hc
        exact absurd (hc : initialVideoId = "") hinit
      | ok q =>
        rw [hpk] at hc
        have hc' : (q.state.videoId = initialVideoId ∨ initialVideoId = "") ∧
            q.state.hasEnded = false ∧
            ¬(0 < q.state.duration ∧ q.state.duration - 5 ≤ q.state.currentTime) ∧
            ¬(q.state.isPaused = true ∧ q.resumeErr = true) := hc
        obtain ⟨hid', hend, hnear, hpause⟩ := hc'
        have hid'' : q.state.videoId = initialVideoId := by
          rcases hid' with h | h
          · exact h
          · exact absurd h hinit
        dsimp only
        rw [if_neg (by
            rintro ⟨hne, -⟩
            exact hne hid''),
          if_neg (by
            rintro (h | h)
            · rw [hend] at h
              exact absurd h (by simp)
            · exact hnear h),
          if_neg hpause]
        exact ih (k + 1) (by omega) (by omega)

/-- A visit whose navigation stages all succeed returns `true` together with
the comment-rotation settings update, whatever happens inside the watch
loop. -/
theorem supportChannel_ok (venv : VisitEnv) (s : Settings) (comments : List String)
    (u : String) (hpage : venv.pageAvailable = true) (hnav : venv.navOk = true)
    (hurl : venv.videoUrl = some u) (hgoto : venv.gotoThrows = false) :
    supportChannel venv s comments
      = (true, { s with lastCommentIndex := some ((getNextComment comments s).index : Int)
                        commentIndexUpdated := true }) := by
  unfold supportChannel
  rw [hpage, hnav, hurl, hgoto]
  simp [getNextComment]

/-- A visit in which `page.goto` throws is reported failed with the settings
untouched, whatever the other oracles say. -/
theorem supportChannel_gotoThrows (venv : VisitEnv) (s : Settings)
    (comments : List String) (hgoto : venv.gotoThrows = true) :
    supportChannel venv s comments = (false, s) := by
  rcases venv with ⟨pa, nav, url, gt, vd, iee, ivi, poll⟩
  cases hgoto
  cases pa <;> cases nav <;> cases url <;> simp [supportChannel]

/-- On a successful visit the orchestrator updates the visited channel's
counter and timestamp and bumps the run counter. -/
theorem runStep_success_effects (venv : VisitEnv) (ts : String) (startIdx i : Nat)
    (comments : List String) (st : LoopState) (hn : 0 < st.channels.length)
    (hsucc : (supportChannel venv st.settings comments).1 = true) :
    ((runStep venv ts startIdx i comments st).channels.getD
        ((startIdx + i) % st.channels.length) default).supportCount
      = some ((st.channels.getD ((startIdx + i) % st.channels.length) default).supportCount.getD 0
          + 1) ∧
    ((runStep venv ts startIdx i comments st).channels.getD
        ((startIdx + i) % st.channels.length) default).lastSupported = some ts ∧
    (runStep venv ts startIdx i comments st).supported = st.supported + 1 := by
  have hpos : (startIdx + i) % st.channels.length < st.channels.length :=
    Nat.mod_lt _ (by omega)
  unfold runStep
  dsimp only
  rw [hsucc, if_pos rfl]
  dsimp only
  have hget : ∀ a : Channel,
      ((st.channels.set ((startIdx + i) % st.channels.length) a).getD
        ((startIdx + i) % st.channels.length) default) = a := by
    intro a
    rw [List.getD_eq_getElem _ _ (by simpa using hpos)]
    exact List.getElem_set_self _
  rw [hget]
  exact ⟨rfl, rfl, rfl⟩

/-- On a failed visit the orchestrator leaves the channel records and the
run counter untouched. -/
theorem runStep_failure_effects (venv : VisitEnv) (ts : String) (startIdx i : Nat)
    (comments : List String) (st : LoopState)
    (hfail : (supportChannel venv st.settings comments).1 = false) :
    (runStep venv ts startIdx i comments st).channels = st.channels ∧
    (runStep venv ts startIdx i comments st).supported = st.supported := by
  unfold runStep
  dsimp only
  rw [hfail, if_neg (by simp)]
  exact ⟨rfl, rfl⟩

/-- C6 counterexample: the claim's second half says a visit in which the
browser capability throws (the spec's `Errored` transition, thrown while
`Watching`) returns failure and does not increment `supportCount`.  In the
code a throw inside the watch loop is caught by `watchVideo`, which returns
`false`, but `supportChannel` discards that result and returns `true`
(supportService.js lines 308-310), so the orchestrator still increments the
count and stamps `lastSupported`: here every poll throws, `watchVideo`
reports `false`, yet the visit is counted. -/
theorem watchError_still_counted :
    watchVideo errWatchVisitEnv.initEvalErr errWatchVisitEnv.poll
        (calculateWatchTime errWatchVisitEnv.videoDetails defaultSettings)
        errWatchVisitEnv.initialVideoId = false ∧
    (supportChannel errWatchVisitEnv defaultSettings ["hello"]).1 = true ∧
    (runStep errWatchVisitEnv "2026-01-01T00:00:00.000Z" 0 0 ["hello"]
        { channels := [{ id := "c1", name := "Chan", url := "u",
                         supportCount := some 0, lastSupported := none }],
          settings := defaultSettings, supported := 0, visited := [] }).supported = 1 ∧
    ((runStep errWatchVisitEnv "2026-01-01T00:00:00.000Z" 0 0 ["hello"]
        { channels := [{ id := "c1", name := "Chan", url := "u",
                         supportCount := some 0, lastSupported := none }],
          settings := defaultSettings, supported := 0, visited := [] }).channels.getD 0
        default).supportCount = some 1 := by
  refine ⟨?_, by decide, by decide, by decide⟩
  have hwt : calculateWatchTime errWatchVisitEnv.videoDetails defaultSettings = 210 := by
    unfold calculateWatchTime errWatchVisitEnv defaultSettings
    dsimp only
    rw [show ((300 : ℚ) * ((70 : Nat) / 100 : ℚ)) = ((210 : ℤ) : ℚ) by norm_num,
      Int.floor_intCast]
    rw [min_eq_left (by norm_num : ((60 : Nat) : ℚ) ≤ 300),
      min_eq_left (by norm_num : (((210 : ℤ) : ℚ)) ≤ ((600 : Nat) : ℚ)),
      max_eq_right (by norm_num : ((60 : Nat) : ℚ) ≤ ((210 : ℤ) : ℚ))]
    norm_num
  rw [hwt]
  have hceil : ⌈(210 : ℚ) / 10⌉₊ = 21 := by
    rw [show (210 : ℚ) / 10 = ((21 : Nat) : ℚ) by norm_num, Nat.ceil_natCast]
  unfold watchVideo
  rw [if_neg (by simp [errWatchVisitEnv]), hceil, watchVideoGo_succ]
  rfl

/-- C6, amended: a video-identifier change between polls (with a determined
initial identifier) ends the watch early and the visit is still treated as a
success — `supportCount` increments by one and `lastSupported` is stamped.
A throw that reaches `supportChannel` (only `page.goto`) returns failure and
does not increment the count.  But a throw inside the watch loop only makes
`watchVideo` return `false`; the visit is nevertheless treated as a success
because `supportChannel` discards the watch result, so "Errored while
Watching" does increment the count, contrary to the claim. -/
theorem watchLoop_interruption_amended (venv : VisitEnv) (ts : String)
    (startIdx i k₀ : Nat) (comments : List String) (st : LoopState) (u : String)
    (hpage : venv.pageAvailable = true) (hnav : venv.navOk = true)
    (hurl : venv.videoUrl = some u) (hgoto : venv.gotoThrows = false)
    (hn : 0 < st.channels.length) :
    (supportChannel venv st.settings comments).1 = true ∧
    ((runStep venv ts startIdx i comments st).channels.getD
        ((startIdx + i) % st.channels.length) default).supportCount
      = some ((st.channels.getD ((startIdx + i) % st.channels.length)
          default).supportCount.getD 0 + 1) ∧
    ((runStep venv ts startIdx i comments st).channels.getD
        ((startIdx + i) % st.channels.length) default).lastSupported = some ts ∧
    (runStep venv ts startIdx i comments st).supported = st.supported + 1 ∧
    (∀ wt : ℚ, venv.initEvalErr = false → venv.initialVideoId ≠ "" →
      (∀ j, j < k₀ → pollContinues (venv.poll j) venv.initialVideoId) →
      (∀ o : PollOutcome, venv.poll k₀ = .ok o →
        o.state.videoId ≠ venv.initialVideoId →
        10 * (k₀ : ℚ) < wt →
        watchVideo venv.initEvalErr venv.poll wt venv.initialVideoId = true ∧
        ∀ poll' : Nat → PollResult, (∀ j, j ≤ k₀ → poll' j = venv.poll j) →
          watchVideo venv.initEvalErr poll' wt venv.initialVideoId = true)) ∧
    (∀ wt : ℚ, venv.initEvalErr = false → venv.poll 0 = .err → 0 < wt →
      watchVideo venv.initEvalErr venv.poll wt venv.initialVideoId = false) ∧
    supportChannel { venv with gotoThrows := true } st.settings comments
      = (false, st.settings) ∧
    (runStep { venv with gotoThrows := true } ts startIdx i comments st).channels
      = st.channels ∧
    (runStep { venv with gotoThrows := true } ts startIdx i comments st).supported
      = st.supported := by
  have hsc := supportChannel_ok venv st.settings comments u hpage hnav hurl hgoto
  have hsucc : (supportChannel venv st.settings comments).1 = true := by
    rw [hsc]
  have heff := runStep_success_effects venv ts startIdx i comments st hn hsucc
  have hscth : supportChannel { venv with gotoThrows := true } st.settings comments
      = (false, st.settings) :=
    supportChannel_gotoThrows _ st.settings comments rfl
  have hfail : (supportChannel { venv with gotoThrows := true } st.settings comments).1
      = false := by
    rw [hscth]
  have hfe := runStep_failure_effects { venv with gotoThrows := true } ts startIdx i
    comments st hfail
  refine ⟨hsucc, heff.1, heff.2.1, heff.2.2, ?_, ?_, hscth, hfe.1, hfe.2⟩
  · intro wt hiee hinit hcont o hp hid hlt
    have hkn : k₀ < ⌈wt / 10⌉₊ := by
      rw [Nat.lt_ceil]
      rw [lt_div_iff₀ (by norm_num)]
      linarith
    have hbrk := watchVideoGo_break_true venv.poll venv.initialVideoId k₀ hinit hcont
      o hp hid ⌈wt / 10⌉₊ 0 (Nat.zero_le _) (by omega)
    constructor
    · unfold watchVideo
      rw [hiee, if_neg (by simp)]
      exact hbrk
    · intro poll' hagree
      have hcont' : ∀ j, j < k₀ → pollContinues (poll' j) venv.initialVideoId := by
        intro j hj
        rw [hagree j (by omega)]
        exact hcont j hj
      have hbrk' := watchVideoGo_break_true poll' venv.initialVideoId k₀ hinit hcont'
        o (by rw [hagree k₀ le_rfl]; exact hp) hid ⌈wt / 10⌉₊ 0 (Nat.zero_le _) (by omega)
      unfold watchVideo
      rw [hiee, if_neg (by simp)]
      exact hbrk'
  · intro wt hiee hp0 hwt
    have hN : 0 < ⌈wt / 10⌉₊ := by
      rw [Nat.ceil_pos]
      positivity
    obtain ⟨m, hm⟩ := Nat.exists_eq_succ_of_ne_zero (Nat.pos_iff_ne_zero.mp hN)
    unfold watchVideo
    rw [hiee, if_neg (by simp), hm, watchVideoGo_succ, hp0]

/-- C6 amended witness: the concrete id-change visit — first poll still on
video `A`, second poll on `B` — ends the watch with `true` and the
orchestrator counts the visit; and the same visit with a throwing
`page.goto` is failed without an increment. -/
theorem watchLoop_interruption_amended_witness :
    watchVideo idChangeVisitEnv.initEvalErr idChangeVisitEnv.poll 210
        idChangeVisitEnv.initialVideoId = true ∧
    (runStep idChangeVisitEnv "2026-01-01T00:00:00.000Z" 0 0 ["hello"]
        { channels := [chA], settings := defaultSettings,
          supported := 0, visited := [] }).supported = 1 ∧
    (runStep { idChangeVisitEnv with gotoThrows := true } "2026-01-01T00:00:00.000Z" 0 0
        ["hello"]
        { channels := [chA], settings := defaultSettings,
          supported := 0, visited := [] }).supported = 0 := by
  have h := watchLoop_interruption_amended idChangeVisitEnv "2026-01-01T00:00:00.000Z"
    0 0 1 ["hello"]
    { channels := [chA], settings := defaultSettings, supported := 0, visited := [] }
    "v" rfl rfl rfl rfl (by decide)
  refine ⟨?_, h.2.2.2.1, h.2.2.2.2.2.2.2.2⟩
  have hid := h.2.2.2.2.1 210 rfl (by decide)
    (by
      intro j hj
      have hj0 : j = 0 := by omega
      subst hj0
      simp only [idChangeVisitEnv, pollContinues]
      norm_num)
    { state := { videoId := "B", currentTime := 1, duration := 300,
                 hasEnded := false, isPaused := false }, resumeErr := false }
    rfl (by decide) (by norm_num)
  exact hid.1

end GazaBot
